import Mathlib

/-!
Shallow embedding of the pairwise string comparison evaluator:
`langchain/evaluation/comparison/eval_chain.py` (the verdict output
parsing, `from_llm` construction validation, `_prepare_input` payload
assembly, and the sync/async `_evaluate_string_pairs` paths) together
with the shared argument validation of `langchain/evaluation/schema.py`
(`_EvalArgsMixin._check_evaluation_args` and the public
`evaluate_string_pairs` / `aevaluate_string_pairs` wrappers).

Python strings are modelled as Lean `String` (a list of characters);
Python `str.strip` / `str.rsplit` are embedded below; Python `dict`
payloads become insertion-ordered association lists; raised exceptions
become `Except.error` carrying the message; warnings emitted by `warn`
become an explicit list of emitted warning messages.
-/

namespace LangchainEval

/-- Python whitespace for the no-argument `str.strip()` (ASCII part). -/
def isPySpace (c : Char) : Bool :=
  c == ' ' || c == '\t' || c == '\n' || c == '\r' || c == '\x0b' || c == '\x0c'

/-- Python `str.strip(chars)`: remove characters satisfying `p` from both
ends of the string (all of them, however many). -/
def pyStripChars (p : Char → Bool) (s : String) : String :=
  String.mk (((s.data.dropWhile p).reverse.dropWhile p).reverse)

/-- Python `text.strip()` with no argument: strip whitespace from both ends. -/
def pyStrip (s : String) : String := pyStripChars isPySpace s

/-- Python `s.strip("[")`. -/
def stripLeftBrackets (s : String) : String := pyStripChars (fun c => c == '[') s

/-- Python `s.strip("]")`. -/
def stripRightBrackets (s : String) : String := pyStripChars (fun c => c == ']') s

/-- The verdict-line cleanup of `parse`: `verdict.strip("[").strip("]")`. -/
def bracketStrip (s : String) : String := stripRightBrackets (stripLeftBrackets s)

/-- Python `s.rsplit("\n", maxsplit=1)` followed by unpacking into two
variables: `some (before, after)` splits at the LAST newline; `none` when
the string has no newline (Python raises `ValueError: not enough values
to unpack`). -/
def pyRsplitNewline1 (s : String) : Option (String × String) :=
  let rev := s.data.reverse
  if ('\n') ∈ rev then
    some (String.mk ((rev.dropWhile (fun c => c != '\n')).tail.reverse),
          String.mk ((rev.takeWhile (fun c => c != '\n')).reverse))
  else none

/-- The structured verdict returned by
`PairwiseStringResultOutputParser.parse`: the dict
`{"reasoning": ..., "value": ..., "score": ...}`.  `value` is
`"A"`, `"B"` or Python `None`; `score` is the result of the
`dict.get` lookup (hence an `Option`). -/
structure ParseResult where
  reasoning : String
  value : Option String
  score : Option ℚ
deriving DecidableEq, Repr

/-- The score lookup `{"A": 1, "B": 0, None: 0.5}.get(verdict_)`. -/
def scoreMap (verdict_ : Option String) : Option ℚ :=
  if verdict_ = some "A" then some 1
  else if verdict_ = some "B" then some 0
  else if verdict_ = none then some (1/2)
  else none

/-- Error message of the failed tuple unpacking on a zero-newline reply. -/
def unpackError : String := "not enough values to unpack (expected 2, got 1)"

/-- Error message for an unrecognized verdict token `v`. -/
def invalidVerdictError (v : String) : String :=
  "Invalid verdict: " ++ v ++ ". Verdict must be one of 'A', 'B', or 'C'."

/-- `PairwiseStringResultOutputParser.parse` (eval_chain.py lines 24-51):
split the stripped text at the last newline into reasoning and verdict
line, strip brackets off the verdict line, reject tokens outside
`{A, B, C}`, map `C` to `None`, and attach the score. -/
def parse (text : String) : Except String ParseResult :=
  match pyRsplitNewline1 (pyStrip text) with
  | none => Except.error unpackError
  | some (reasoning, verdictLine) =>
    let verdict := bracketStrip verdictLine
    if verdict = "A" ∨ verdict = "B" ∨ verdict = "C" then
      let verdict_ : Option String := if verdict = "C" then none else some verdict
      Except.ok { reasoning := reasoning, value := verdict_, score := scoreMap verdict_ }
    else
      Except.error (invalidVerdictError verdict)

/-- A prompt template, reduced to its declared input variables
(the only part the embedded code inspects). -/
structure PromptTemplate where
  input_variables : List String
deriving DecidableEq, Repr

/-- Python set equality `set(a) == set(b)` on the underlying lists. -/
def pySetEq (a b : List String) : Bool :=
  a.all (fun x => b.contains x) && b.all (fun x => a.contains x)

/-- Modelled from the spec: the default prompt template `PROMPT` of
`langchain/evaluation/comparison/prompt.py` is not among the sources;
the spec (section 4.2) says the default template without a reference
slot declares exactly the variables prediction, prediction_b, input. -/
def PROMPT : PromptTemplate :=
  { input_variables := ["input", "prediction", "prediction_b"] }

/-- Modelled from the spec: the default prompt template
`PROMPT_WITH_REFERENCE` of `langchain/evaluation/comparison/prompt.py`
is not among the sources; the spec (section 4.2) says the default
template with a reference slot additionally declares reference. -/
def PROMPT_WITH_REFERENCE : PromptTemplate :=
  { input_variables := ["input", "prediction", "prediction_b", "reference"] }

/-- Error raised by `from_llm` on an input-variable mismatch. -/
def inputVariablesError : String :=
  "Input variables should be the expected set, but got the prompt input variables"

/-- `PairwiseStringEvalChain.from_llm` (eval_chain.py lines 102-140),
with the LLM object elided (it is stored, never inspected): compute the
expected variable set, pick the default template when none is supplied,
and validate the template's declared variables against the expected set;
success returns the chain, represented by its chosen prompt. -/
def from_llm (prompt : Option PromptTemplate) (requires_reference : Bool) :
    Except String PromptTemplate :=
  let expected0 : List String := ["prediction", "prediction_b", "input"]
  let expected : List String :=
    if requires_reference then expected0 ++ ["reference"] else expected0
  let prompt_ : PromptTemplate :=
    match prompt with
    | none => if requires_reference then PROMPT_WITH_REFERENCE else PROMPT
    | some p => p
  if pySetEq expected prompt_.input_variables then Except.ok prompt_
  else Except.error inputVariablesError

/-- A constructed `PairwiseStringEvalChain`, reduced to the state the
embedded methods read: its prompt template. -/
structure PairwiseStringEvalChain where
  prompt : PromptTemplate
deriving DecidableEq, Repr

/-- `PairwiseStringEvalChain.requires_reference` (line 84-86):
whether "reference" occurs among the prompt's input variables. -/
def requires_reference (c : PairwiseStringEvalChain) : Bool :=
  c.prompt.input_variables.contains ("reference")

/-- `PairwiseStringEvalChain.requires_input` (line 88-90): constantly True. -/
def requires_input (_c : PairwiseStringEvalChain) : Bool := true

/-- Python truthiness test `not input` on an optional string:
true for `None` and for the empty string. -/
def pyFalsy (s : Option String) : Bool :=
  match s with
  | none => true
  | some t => t == ""

/-- Error raised by `_prepare_input` when the input is missing/empty
(message as written in the source, typo included). -/
def inputRequiredError : String := "Input is require for this comparison evaluator"

/-- Error raised by `_prepare_input` when the reference is None. -/
def referenceRequiredError : String := "Reference is required for this comparison evaluator"

/-- `PairwiseStringEvalChain._prepare_input` (lines 142-161): the
payload dict, as an insertion-ordered association list.  Always carries
prediction and prediction_b; adds input when required, rejecting falsy
input (`if not input`); adds reference when required, rejecting only
`None` (`if reference is None`). -/
def _prepare_input (c : PairwiseStringEvalChain) (prediction prediction_b : String)
    (input reference : Option String) : Except String (List (String × String)) :=
  let base := [("prediction", prediction), ("prediction_b", prediction_b)]
  match
    (if requires_input c then
      if pyFalsy input then Except.error inputRequiredError
      else Except.ok (base ++ [("input", input.getD "")])
    else Except.ok base) with
  | Except.error e => Except.error e
  | Except.ok withInput =>
    if requires_reference c then
      match reference with
      | none => Except.error referenceRequiredError
      | some r => Except.ok (withInput ++ [("reference", r)])
    else Except.ok withInput

/-- The capability flags and warning/error strings an evaluator exposes
to `_EvalArgsMixin._check_evaluation_args`: the `requires_input` /
`requires_reference` properties, the class name used in error messages,
and the `_skip_input_warning` / `_skip_reference_warning` texts. -/
structure EvaluatorFlags where
  requiresInput : Bool
  requiresReference : Bool
  className : String
  skipInputWarning : String
  skipReferenceWarning : String
deriving DecidableEq, Repr

/-- The "requires an input string." error of `_check_evaluation_args`. -/
def inputMissingError (ev : EvaluatorFlags) : String :=
  ev.className ++ " requires an input string."

/-- The "requires a reference string." error of `_check_evaluation_args`. -/
def referenceMissingError (ev : EvaluatorFlags) : String :=
  ev.className ++ " requires a reference string."

/-- `_EvalArgsMixin._check_evaluation_args` (schema.py lines 37-53).
Returns the list of warnings emitted (in order) paired with the raised
error, if any: the input rules run first and a raise aborts before the
reference rules; a warning emitted before a later raise is kept. -/
def _check_evaluation_args (ev : EvaluatorFlags) (reference input : Option String) :
    List String × Option String :=
  if ev.requiresInput && input.isNone then
    ([], some (inputMissingError ev))
  else
    let ws := if input.isSome && !ev.requiresInput then [ev.skipInputWarning] else []
    if ev.requiresReference && reference.isNone then
      (ws, some (referenceMissingError ev))
    else
      let ws2 :=
        if reference.isSome && !ev.requiresReference then ws ++ [ev.skipReferenceWarning]
        else ws
      (ws2, none)

/-- The flags a `PairwiseStringEvalChain` presents to the argument
check: `requires_input` is the constant True property, and
`_skip_reference_warning` is the overridden message of eval_chain.py
lines 92-100. -/
def chainFlags (c : PairwiseStringEvalChain) : EvaluatorFlags :=
  { requiresInput := requires_input c
    requiresReference := requires_reference c
    className := "PairwiseStringEvalChain"
    skipInputWarning := "Ignoring input in PairwiseStringEvalChain, as it is not expected."
    skipReferenceWarning :=
      "Ignoring reference in PairwiseStringEvalChain, as it is not expected." ++
      "\nTo use a reference, initialize PairwiseStringEvalChain with" ++
      " `requires_reference=True` or with a prompt with 'reference' as an" ++
      " input variable." }

/-- `PairwiseStringEvalChain._evaluate_string_pairs` (eval_chain.py
lines 163-197): build the payload via `_prepare_input`, submit it to the
completion capability (`call`, the abstracted synchronous
prompt-render-and-LLM invocation of `self(inputs=...)`), and parse the
reply; `result["text"]` is the parser's output. -/
def _evaluate_string_pairs (c : PairwiseStringEvalChain)
    (call : List (String × String) → String)
    (prediction prediction_b : String) (input reference : Option String) :
    Except String ParseResult :=
  match _prepare_input c prediction prediction_b input reference with
  | Except.error e => Except.error e
  | Except.ok input_ => parse (call input_)

/-- `PairwiseStringEvalChain._aevaluate_string_pairs` (eval_chain.py
lines 199-233): identical body with `await self.acall(inputs=...)` as
the abstracted asynchronous completion invocation `acall`. -/
def _aevaluate_string_pairs (c : PairwiseStringEvalChain)
    (acall : List (String × String) → String)
    (prediction prediction_b : String) (reference input : Option String) :
    Except String ParseResult :=
  match _prepare_input c prediction prediction_b input reference with
  | Except.error e => Except.error e
  | Except.ok input_ => parse (acall input_)

/-- `PairwiseStringEvaluator.evaluate_string_pairs` (schema.py lines
213-244): run `_check_evaluation_args`, then delegate to
`_evaluate_string_pairs`.  The first component records the warnings
emitted. -/
def evaluate_string_pairs (c : PairwiseStringEvalChain)
    (call : List (String × String) → String)
    (prediction prediction_b : String) (reference input : Option String) :
    List String × Except String ParseResult :=
  let checked := _check_evaluation_args (chainFlags c) reference input
  match checked.2 with
  | some e => (checked.1, Except.error e)
  | none => (checked.1, _evaluate_string_pairs c call prediction prediction_b input reference)

/-- `PairwiseStringEvaluator.aevaluate_string_pairs` (schema.py lines
246-277): run `_check_evaluation_args`, then await
`_aevaluate_string_pairs`. -/
def aevaluate_string_pairs (c : PairwiseStringEvalChain)
    (acall : List (String × String) → String)
    (prediction prediction_b : String) (reference input : Option String) :
    List String × Except String ParseResult :=
  let checked := _check_evaluation_args (chainFlags c) reference input
  match checked.2 with
  | some e => (checked.1, Except.error e)
  | none => (checked.1, _aevaluate_string_pairs c acall prediction prediction_b reference input)

/-- A reasoning string that survives `str.strip` untouched on its left
edge: nonempty and not starting with whitespace. -/
def strippedStart (r : String) : Bool :=
  match r.data with
  | [] => false
  | c :: _ => !(isPySpace c)

/-- A reasoning string containing at least one non-whitespace character
(the condition under which `text.strip()` leaves the final newline of
`r ++ "\n" ++ verdict` intact). -/
def hasNonSpace (r : String) : Bool :=
  r.data.any (fun c => !(isPySpace c))

/-- Whether an `Except` result is a success. -/
def isOk {ε α : Type _} (e : Except ε α) : Bool :=
  match e with
  | Except.ok _ => true
  | Except.error _ => false

/-! ### Helper lemmas on lists and the string primitives -/

lemma dropWhile_append_left {p : Char → Bool} (xs ys : List Char)
    (h : xs.dropWhile p ≠ []) :
    (xs ++ ys).dropWhile p = xs.dropWhile p ++ ys := by
  induction xs with
  | nil => simp at h
  | cons c t ih =>
    by_cases hc : p c = true
    · simp only [List.dropWhile_cons, hc, if_true, List.cons_append] at h ⊢
      exact ih h
    · simp only [Bool.not_eq_true] at hc
      simp [List.dropWhile_cons, hc]

lemma takeWhile_append_cons {p : Char → Bool} (xs : List Char) (y : Char) (ys : List Char)
    (hxs : ∀ x ∈ xs, p x = true) (hy : p y = false) :
    (xs ++ y :: ys).takeWhile p = xs := by
  induction xs with
  | nil => simp [List.takeWhile_cons, hy]
  | cons c t ih =>
    have hc : p c = true := hxs c (by simp)
    simp only [List.cons_append, List.takeWhile_cons, hc, if_true]
    rw [ih (fun x hx => hxs x (by simp [hx]))]

lemma dropWhile_append_cons {p : Char → Bool} (xs : List Char) (y : Char) (ys : List Char)
    (hxs : ∀ x ∈ xs, p x = true) (hy : p y = false) :
    (xs ++ y :: ys).dropWhile p = y :: ys := by
  induction xs with
  | nil => simp [List.dropWhile_cons, hy]
  | cons c t ih =>
    have hc : p c = true := hxs c (by simp)
    simp only [List.cons_append, List.dropWhile_cons, hc, if_true]
    exact ih (fun x hx => hxs x (by simp [hx]))

lemma dropWhile_replicate {p : Char → Bool} (c : Char) (hc : p c = true)
    (n : ℕ) (l : List Char) :
    (List.replicate n c ++ l).dropWhile p = l.dropWhile p := by
  induction n with
  | zero => simp
  | succ k ih => simp [List.replicate_succ, List.dropWhile_cons, hc, ih]

lemma dropWhile_eq_self_of_forall {p : Char → Bool} (l : List Char)
    (h : ∀ x ∈ l, p x = false) : l.dropWhile p = l := by
  cases l with
  | nil => rfl
  | cons c t =>
    have hc : p c = false := h c (by simp)
    simp [List.dropWhile_cons, hc]

lemma dropWhile_ne_nil_of_any (l : List Char) (p : Char → Bool)
    (h : l.any (fun c => !(p c)) = true) : l.dropWhile p ≠ [] := by
  induction l with
  | nil => simp at h
  | cons c t ih =>
    by_cases hc : p c = true
    · simp only [List.any_cons, hc, Bool.not_true, Bool.false_or] at h
      simp only [List.dropWhile_cons, hc, if_true]
      exact ih h
    · simp only [Bool.not_eq_true] at hc
      simp [List.dropWhile_cons, hc]

/-- `text.strip()` on `r ++ "\n" ++ w ++ [c]` with a trailing
non-whitespace character `c` strips only the leading whitespace of `r`. -/
lemma pyStrip_append_newline (r : String) (w : List Char) (c : Char)
    (hr : r.data.dropWhile isPySpace ≠ [])
    (hc2 : isPySpace c = false) :
    pyStrip (r ++ String.mk ('\n' :: (w ++ [c]))) =
      String.mk (r.data.dropWhile isPySpace ++ '\n' :: (w ++ [c])) := by
  unfold pyStrip pyStripChars
  have hdata : (r ++ String.mk ('\n' :: (w ++ [c]))).data
      = r.data ++ '\n' :: (w ++ [c]) := rfl
  rw [hdata, dropWhile_append_left _ _ hr]
  have hrev : (r.data.dropWhile isPySpace ++ '\n' :: (w ++ [c])).reverse
      = c :: (w.reverse ++ '\n' :: (r.data.dropWhile isPySpace).reverse) := by
    simp
  rw [hrev, List.dropWhile_cons_of_neg (by simp [hc2])]
  simp

/-- `rsplit("\n", maxsplit=1)` splits `x ++ "\n" ++ v` at that newline when
`v` has no newline of its own. -/
lemma pyRsplitNewline1_append (x v : List Char) (hv : ('\n') ∉ v) :
    pyRsplitNewline1 (String.mk (x ++ '\n' :: v)) = some (String.mk x, String.mk v) := by
  simp only [pyRsplitNewline1]
  have hrev : (String.mk (x ++ '\n' :: v)).data.reverse
      = v.reverse ++ '\n' :: x.reverse := by
    simp
  rw [hrev]
  have hall : ∀ y ∈ v.reverse, (y != '\n') = true := by
    intro y hy
    simp only [bne_iff_ne, ne_eq]
    intro hcon
    exact hv (by simpa [hcon] using (List.mem_reverse).1 hy)
  rw [if_pos (by simp), takeWhile_append_cons _ _ _ hall (by simp),
    dropWhile_append_cons _ _ _ hall (by simp)]
  simp

/-- Parsing `r ++ "\n" ++ w ++ [c]`: the reply splits into the
left-stripped reasoning and the verdict line `w ++ [c]`, and the rest of
`parse` runs on that verdict line. -/
lemma parse_append (r : String) (w : List Char) (c : Char)
    (hr : r.data.dropWhile isPySpace ≠ [])
    (hw : ('\n') ∉ w) (hc1 : c ≠ '\n') (hc2 : isPySpace c = false) :
    parse (r ++ String.mk ('\n' :: (w ++ [c]))) =
      (if bracketStrip (String.mk (w ++ [c])) = "A" ∨
          bracketStrip (String.mk (w ++ [c])) = "B" ∨
          bracketStrip (String.mk (w ++ [c])) = "C" then
        Except.ok
          { reasoning := String.mk (r.data.dropWhile isPySpace)
            value :=
              if bracketStrip (String.mk (w ++ [c])) = "C" then none
              else some (bracketStrip (String.mk (w ++ [c])))
            score := scoreMap
              (if bracketStrip (String.mk (w ++ [c])) = "C" then none
               else some (bracketStrip (String.mk (w ++ [c])))) }
      else Except.error (invalidVerdictError (bracketStrip (String.mk (w ++ [c]))))) := by
  have hmem : ('\n') ∉ w ++ [c] := by
    simp only [List.mem_append, List.mem_singleton]
    rintro (hn | hn)
    · exact hw hn
    · exact hc1 hn.symm
  unfold parse
  rw [pyStrip_append_newline r w c hr hc2, pyRsplitNewline1_append _ _ hmem]

/-- A string passing `strippedStart` is untouched by the leading
whitespace strip. -/
lemma strippedStart_dropWhile (r : String) (h : strippedStart r = true) :
    r.data.dropWhile isPySpace = r.data := by
  obtain ⟨l⟩ := r
  cases l with
  | nil => exact absurd h (by decide)
  | cons c t =>
    have hc : isPySpace c = false := by
      simpa [strippedStart] using h
    simp [List.dropWhile_cons, hc]

lemma strippedStart_ne_nil (r : String) (h : strippedStart r = true) :
    r.data.dropWhile isPySpace ≠ [] := by
  rw [strippedStart_dropWhile r h]
  obtain ⟨l⟩ := r
  cases l with
  | nil => exact absurd h (by decide)
  | cons c t => simp

lemma hasNonSpace_dropWhile_ne_nil (r : String) (h : hasNonSpace r = true) :
    r.data.dropWhile isPySpace ≠ [] :=
  dropWhile_ne_nil_of_any r.data isPySpace h

/-- The bracket cleanup removes every leading `[` and every trailing `]`,
however many there are. -/
lemma bracketStrip_replicate (n m : ℕ) :
    bracketStrip (String.mk (List.replicate n '[' ++ 'A' :: List.replicate m ']')) = "A" := by
  have h1 : (List.replicate n '[' ++ 'A' :: List.replicate m ']').dropWhile
      (fun c => c == '[') = 'A' :: List.replicate m ']' := by
    rw [dropWhile_replicate '[' (by decide) n]
    exact List.dropWhile_cons_of_neg (by decide)
  have h2 : (('A' :: List.replicate m ']').reverse).dropWhile (fun c => c == '[')
      = ('A' :: List.replicate m ']').reverse := by
    apply dropWhile_eq_self_of_forall
    intro x hx
    rw [List.mem_reverse] at hx
    rcases List.mem_cons.1 hx with h | h
    · rw [h]; decide
    · rw [List.eq_of_mem_replicate h]; decide
  unfold bracketStrip stripLeftBrackets stripRightBrackets pyStripChars
  dsimp only
  rw [h1, h2, List.reverse_reverse, List.dropWhile_cons_of_neg (by decide)]
  have h5 : ('A' :: List.replicate m ']').reverse = List.replicate m ']' ++ ['A'] := by simp
  rw [h5, dropWhile_replicate ']' (by decide) m, List.dropWhile_cons_of_neg (by decide)]
  rfl

/-- Once the reply has been split into reasoning and verdict line, the
rest of `parse` is determined by the bracket-stripped verdict token. -/
lemma parse_eq_of_split (text reasoning verdictLine : String)
    (h : pyRsplitNewline1 (pyStrip text) = some (reasoning, verdictLine)) :
    parse text =
      (if bracketStrip verdictLine = "A" ∨ bracketStrip verdictLine = "B" ∨
          bracketStrip verdictLine = "C" then
        Except.ok
          { reasoning := reasoning
            value :=
              if bracketStrip verdictLine = "C" then none
              else some (bracketStrip verdictLine)
            score := scoreMap
              (if bracketStrip verdictLine = "C" then none
               else some (bracketStrip verdictLine)) }
      else Except.error (invalidVerdictError (bracketStrip verdictLine))) := by
  simp [parse, h]

/-! ### Claims -/

/-- C1 (counterexample): the claim says every reply of the form
`"<reasoning>\n[[A]]"` parses with `reasoning` equal to the text before
the final line.  At the concrete reply `" x\n[[A]]"` the text before the
final line is `" x"`, but `parse` strips the whole reply first, so the
returned reasoning is `"x"`. -/
theorem C1_reasoning_not_preserved :
    parse (" x\n[[A]]") ≠
      Except.ok { reasoning := " x", value := some ("A"), score := some 1 } ∧
    parse (" x\n[[A]]") =
      Except.ok { reasoning := "x", value := some ("A"), score := some 1 } := by
  constructor
  · intro h
    have : (" x" : String) = "x" := by
      have h2 : parse (" x\n[[A]]") =
          Except.ok { reasoning := "x", value := some ("A"), score := some 1 } := rfl
      rw [h] at h2
      exact congrArg ParseResult.reasoning (Except.ok.inj h2)
    exact absurd this (by decide)
  · rfl

/-- C1 (amended): for every reasoning text that is nonempty and does not
begin with whitespace, parsing `reasoning ++ "\n[[A]]"` / `"[[B]]"` /
`"[[C]]"` succeeds with value `"A"` / `"B"` / `None`, score `1` / `0` /
`0.5`, and reasoning equal to the text before the final line. -/
theorem C1_parse_wellformed_reply (r : String) (h : strippedStart r = true) :
    parse (r ++ ("\n[[A]]")) =
      Except.ok { reasoning := r, value := some ("A"), score := some 1 } ∧
    parse (r ++ ("\n[[B]]")) =
      Except.ok { reasoning := r, value := some ("B"), score := some 0 } ∧
    parse (r ++ ("\n[[C]]")) =
      Except.ok { reasoning := r, value := none, score := some (1/2) } := by
  have hr := strippedStart_ne_nil r h
  have hd := strippedStart_dropWhile r h
  refine ⟨?_, ?_, ?_⟩
  · have e : ("\n[[A]]" : String) = String.mk ('\n' :: (['[', '[', 'A', ']'] ++ [']'])) := rfl
    rw [e, parse_append r _ _ hr (by decide) (by decide) (by decide), hd]
    rfl
  · have e : ("\n[[B]]" : String) = String.mk ('\n' :: (['[', '[', 'B', ']'] ++ [']'])) := rfl
    rw [e, parse_append r _ _ hr (by decide) (by decide) (by decide), hd]
    rfl
  · have e : ("\n[[C]]" : String) = String.mk ('\n' :: (['[', '[', 'C', ']'] ++ [']'])) := rfl
    rw [e, parse_append r _ _ hr (by decide) (by decide) (by decide), hd]
    rfl

/-- C1 (witness): the amended theorem applied at a concrete reasoning text. -/
theorem C1_parse_wellformed_reply_witness :
    strippedStart ("Both are correct, B is more detailed.") = true ∧
    parse ("Both are correct, B is more detailed." ++ ("\n[[B]]")) =
      Except.ok { reasoning := "Both are correct, B is more detailed."
                  value := some ("B"), score := some 0 } :=
  ⟨by decide,
   (C1_parse_wellformed_reply ("Both are correct, B is more detailed.") (by decide)).2.1⟩

/-- C2: a reply whose stripped text contains no newline (a single-line
reply) makes `parse` fail with the unpack error instead of returning a
result. -/
theorem C2_single_line_fails (text : String)
    (h : ('\n') ∉ (pyStrip text).data) :
    parse text = Except.error unpackError := by
  have hnone : pyRsplitNewline1 (pyStrip text) = none := by
    simp only [pyRsplitNewline1]
    rw [if_neg]
    simpa [List.mem_reverse] using h
  simp [parse, hnone]

/-- C2 (witness): the single-line reply `"[[A]]"` fails to parse. -/
theorem C2_single_line_fails_witness :
    ('\n') ∉ (pyStrip ("[[A]]")).data ∧ parse ("[[A]]") = Except.error unpackError :=
  ⟨by decide, C2_single_line_fails ("[[A]]") (by decide)⟩

/-- C3: when the reply does split into a reasoning part and a verdict
line but the bracket-stripped verdict token is none of `A`, `B`, `C`,
`parse` fails with an error message that includes the offending token. -/
theorem C3_invalid_verdict_error (text reasoning verdictLine : String)
    (h : pyRsplitNewline1 (pyStrip text) = some (reasoning, verdictLine))
    (hA : bracketStrip verdictLine ≠ "A") (hB : bracketStrip verdictLine ≠ "B")
    (hC : bracketStrip verdictLine ≠ "C") :
    parse text = Except.error
      ("Invalid verdict: " ++ bracketStrip verdictLine ++
       ". Verdict must be one of 'A', 'B', or 'C'.") := by
  simp [parse, h, invalidVerdictError, hA, hB, hC]

/-- C3 (witness): the reply `"r\n[[D]]"` fails with a message naming `D`. -/
theorem C3_invalid_verdict_error_witness :
    pyRsplitNewline1 (pyStrip ("r\n[[D]]")) = some (("r"), ("[[D]]")) ∧
    parse ("r\n[[D]]") = Except.error
      ("Invalid verdict: " ++ bracketStrip ("[[D]]") ++
       ". Verdict must be one of 'A', 'B', or 'C'.") :=
  ⟨by decide,
   C3_invalid_verdict_error ("r\n[[D]]") ("r") ("[[D]]")
     (by decide) (by decide) (by decide) (by decide)⟩

/-- C4 (counterexample): the claim quantifies over every reasoning text;
at the empty reasoning text the reply `"\n[A]"` does not parse
successfully at all (stripping deletes the only newline), so it cannot
parse to value `"A"`. -/
theorem C4_empty_reasoning_fails :
    parse ("" ++ ("\n[A]")) = Except.error unpackError ∧
    parse ("" ++ ("\n[[A]]")) = Except.error unpackError := ⟨rfl, rfl⟩

/-- C4 (amended): the bracket cleanup strips any number of leading `[`
and trailing `]`; consequently, for every reasoning text containing at
least one non-whitespace character, replies whose final line is `"[A]"`
or `"[[[A]]"` parse exactly as with `"[[A]]"`, successfully and with
value `"A"`. -/
theorem C4_bracket_strip_loose (n m : ℕ) (r : String) (h : hasNonSpace r = true) :
    bracketStrip (String.mk (List.replicate n '[' ++ 'A' :: List.replicate m ']')) = "A" ∧
    parse (r ++ ("\n[A]")) = parse (r ++ ("\n[[A]]")) ∧
    parse (r ++ ("\n[[[A]]")) = parse (r ++ ("\n[[A]]")) ∧
    parse (r ++ ("\n[A]")) =
      Except.ok { reasoning := String.mk (r.data.dropWhile isPySpace)
                  value := some ("A"), score := some 1 } := by
  have hr := hasNonSpace_dropWhile_ne_nil r h
  have e1 : ("\n[A]" : String) = String.mk ('\n' :: (['[', 'A'] ++ [']'])) := rfl
  have e2 : ("\n[[A]]" : String) = String.mk ('\n' :: (['[', '[', 'A', ']'] ++ [']'])) := rfl
  have e3 : ("\n[[[A]]" : String) = String.mk ('\n' :: (['[', '[', '[', 'A', ']'] ++ [']'])) := rfl
  refine ⟨bracketStrip_replicate n m, ?_, ?_, ?_⟩
  · rw [e1, e2, parse_append r _ _ hr (by decide) (by decide) (by decide),
      parse_append r _ _ hr (by decide) (by decide) (by decide)]
    rfl
  · rw [e3, e2, parse_append r _ _ hr (by decide) (by decide) (by decide),
      parse_append r _ _ hr (by decide) (by decide) (by decide)]
    rfl
  · rw [e1, parse_append r _ _ hr (by decide) (by decide) (by decide)]
    rfl

/-- C4 (witness): the amended theorem at concrete bracket counts and a
concrete reasoning text. -/
theorem C4_bracket_strip_loose_witness :
    hasNonSpace ("r") = true ∧
    parse ("r" ++ ("\n[A]")) = parse ("r" ++ ("\n[[A]]")) ∧
    parse ("r" ++ ("\n[[[A]]")) = parse ("r" ++ ("\n[[A]]")) :=
  ⟨by decide,
   (C4_bracket_strip_loose 3 2 ("r") (by decide)).2.1,
   (C4_bracket_strip_loose 3 2 ("r") (by decide)).2.2.1⟩

/-- C5: whenever `parse` succeeds, the score is determined by the value
alone: value `"A"` gives score `1`, value `"B"` gives score `0`, and
value `None` gives score `0.5`, whatever the reasoning text was. -/
theorem C5_score_function_of_value (text : String) (res : ParseResult)
    (h : parse text = Except.ok res) :
    (res.value = some ("A") ∧ res.score = some 1) ∨
    (res.value = some ("B") ∧ res.score = some 0) ∨
    (res.value = none ∧ res.score = some (1/2)) := by
  cases hsplit : pyRsplitNewline1 (pyStrip text) with
  | none =>
    have hfail : parse text = Except.error unpackError := by simp [parse, hsplit]
    rw [hfail] at h
    exact absurd h (by simp)
  | some pr =>
    obtain ⟨rsn, vl⟩ := pr
    rw [parse_eq_of_split text rsn vl hsplit] at h
    by_cases hA : bracketStrip vl = "A"
    · rw [if_pos (Or.inl hA), hA] at h
      have hres := Except.ok.inj h
      left
      rw [← hres]
      exact ⟨rfl, rfl⟩
    · by_cases hB : bracketStrip vl = "B"
      · rw [if_pos (Or.inr (Or.inl hB)), hB] at h
        have hres := Except.ok.inj h
        right; left
        rw [← hres]
        exact ⟨rfl, rfl⟩
      · by_cases hC : bracketStrip vl = "C"
        · rw [if_pos (Or.inr (Or.inr hC)), hC] at h
          have hres := Except.ok.inj h
          right; right
          rw [← hres]
          exact ⟨rfl, rfl⟩
        · rw [if_neg (by simp [hA, hB, hC])] at h
          exact absurd h (by simp)

/-- C5 (witness): the theorem applied at a concrete tied reply. -/
theorem C5_score_function_of_value_witness :
    parse ("r\n[[C]]") =
      Except.ok { reasoning := "r", value := none, score := some (1/2) } ∧
    ((({ reasoning := "r", value := none, score := some (1/2) } :
        ParseResult).value = some ("A") ∧
      ({ reasoning := "r", value := none, score := some (1/2) } :
        ParseResult).score = some 1) ∨
     (({ reasoning := "r", value := none, score := some (1/2) } :
        ParseResult).value = some ("B") ∧
      ({ reasoning := "r", value := none, score := some (1/2) } :
        ParseResult).score = some 0) ∨
     (({ reasoning := "r", value := none, score := some (1/2) } :
        ParseResult).value = none ∧
      ({ reasoning := "r", value := none, score := some (1/2) } :
        ParseResult).score = some (1/2))) :=
  ⟨rfl,
   C5_score_function_of_value ("r\n[[C]]")
     { reasoning := "r", value := none, score := some (1/2) } rfl⟩

/-- Python set equality on string lists is membership extensionality. -/
lemma pySetEq_true_iff (a b : List String) :
    pySetEq a b = true ↔ ∀ x, x ∈ a ↔ x ∈ b := by
  unfold pySetEq
  rw [Bool.and_eq_true, List.all_eq_true, List.all_eq_true]
  constructor
  · rintro ⟨h1, h2⟩ x
    constructor
    · intro hx
      simpa [List.contains] using h1 x hx
    · intro hx
      simpa [List.contains] using h2 x hx
  · intro h
    refine ⟨fun x hx => ?_, fun x hx => ?_⟩
    · simpa [List.contains] using (h x).1 hx
    · simpa [List.contains] using (h x).2 hx

/-- C6: construction from a supplied template succeeds exactly when the
template's declared input variables equal, as an unordered set, the
expected set (prediction, prediction_b, input, plus reference when
`requires_reference` is set); in particular a template without a
`reference` variable is rejected when `requires_reference` is true. -/
theorem C6_from_llm_validation (p : PromptTemplate) (rr : Bool) :
    (isOk (from_llm (some p) rr) = true ↔
      ∀ x, x ∈ p.input_variables ↔
        x ∈ (if rr then
              (["prediction", "prediction_b", "input", "reference"] : List String)
             else ["prediction", "prediction_b", "input"])) ∧
    (("reference") ∉ p.input_variables → isOk (from_llm (some p) true) = false) := by
  constructor
  · cases rr with
    | false =>
      show isOk (if pySetEq (["prediction", "prediction_b", "input"]) p.input_variables
        then Except.ok p else Except.error inputVariablesError) = true ↔ _
      by_cases hs : pySetEq (["prediction", "prediction_b", "input"]) p.input_variables = true
      · rw [if_pos hs]
        simp only [if_neg (by decide : ¬(False : Prop)), Bool.false_eq_true, if_false]
        constructor
        · intro _ x
          exact ((pySetEq_true_iff _ _).1 hs x).symm
        · intro _
          rfl
      · rw [if_neg hs]
        constructor
        · intro hcon
          exact absurd hcon (by decide)
        · intro hmem
          exact absurd ((pySetEq_true_iff _ _).2 (fun x => (hmem x).symm)) hs
    | true =>
      show isOk (if pySetEq (["prediction", "prediction_b", "input"] ++ ["reference"])
        p.input_variables then Except.ok p else Except.error inputVariablesError) = true ↔ _
      by_cases hs : pySetEq (["prediction", "prediction_b", "input"] ++ ["reference"])
          p.input_variables = true
      · rw [if_pos hs]
        constructor
        · intro _ x
          have := ((pySetEq_true_iff _ _).1 hs x).symm
          simpa using this
        · intro _
          rfl
      · rw [if_neg hs]
        constructor
        · intro hcon
          exact absurd hcon (by decide)
        · intro hmem
          refine absurd ((pySetEq_true_iff _ _).2 (fun x => ?_)) hs
          have := (hmem x).symm
          simpa using this
  · intro href
    show isOk (if pySetEq (["prediction", "prediction_b", "input"] ++ ["reference"])
      p.input_variables then Except.ok p else Except.error inputVariablesError) = false
    by_cases hs : pySetEq (["prediction", "prediction_b", "input"] ++ ["reference"])
        p.input_variables = true
    · exact absurd (((pySetEq_true_iff _ _).1 hs ("reference")).1 (by simp)) href
    · rw [if_neg hs]
      rfl

/-- C6 (witness): a template lacking `reference` is rejected when
`requires_reference` is true. -/
theorem C6_from_llm_validation_witness :
    (("reference") ∉
      (PromptTemplate.mk ["prediction", "prediction_b", "input"]).input_variables) ∧
    isOk (from_llm (some (PromptTemplate.mk ["prediction", "prediction_b", "input"])) true)
      = false :=
  ⟨by decide,
   (C6_from_llm_validation (PromptTemplate.mk ["prediction", "prediction_b", "input"])
     true).2 (by decide)⟩

/-- C7: the payload always carries prediction and prediction_b; a `None`
or empty input is rejected (input is always required for this chain);
when a reference is required only `None` is rejected, so an empty-string
reference is accepted while an empty-string input is not. -/
theorem C7_prepare_input_asymmetry (c : PairwiseStringEvalChain)
    (prediction prediction_b : String) (input reference : Option String) :
    (∀ out, _prepare_input c prediction prediction_b input reference = Except.ok out →
      ("prediction", prediction) ∈ out ∧ ("prediction_b", prediction_b) ∈ out) ∧
    _prepare_input c prediction prediction_b none reference
      = Except.error inputRequiredError ∧
    _prepare_input c prediction prediction_b (some "") reference
      = Except.error inputRequiredError ∧
    (requires_reference c = true →
      _prepare_input c prediction prediction_b (some ("x")) none
        = Except.error referenceRequiredError) ∧
    (requires_reference c = true →
      isOk (_prepare_input c prediction prediction_b (some ("x")) (some ""))
        = true) := by
  refine ⟨?_, rfl, rfl, ?_, ?_⟩
  · intro out hout
    by_cases hin : pyFalsy input = true
    · simp [_prepare_input, requires_input, hin] at hout
    · by_cases href : requires_reference c = true
      · cases reference with
        | none => simp [_prepare_input, requires_input, hin, href] at hout
        | some rv =>
          simp [_prepare_input, requires_input, hin, href] at hout
          rw [← hout]
          constructor <;> simp
      · simp [_prepare_input, requires_input, hin, href] at hout
        rw [← hout]
        constructor <;> simp
  · intro h
    simp [_prepare_input, requires_input, pyFalsy, h]
  · intro h
    simp [_prepare_input, requires_input, pyFalsy, h, isOk]

/-- C7 (witness): with a reference-requiring chain, an empty-string
reference is accepted. -/
theorem C7_prepare_input_asymmetry_witness :
    requires_reference (PairwiseStringEvalChain.mk
      (PromptTemplate.mk ["input", "prediction", "prediction_b", "reference"])) = true ∧
    isOk (_prepare_input (PairwiseStringEvalChain.mk
      (PromptTemplate.mk ["input", "prediction", "prediction_b", "reference"]))
      ("p") ("q") (some ("x")) (some "")) = true :=
  ⟨by decide,
   (C7_prepare_input_asymmetry (PairwiseStringEvalChain.mk
      (PromptTemplate.mk ["input", "prediction", "prediction_b", "reference"]))
      ("p") ("q") (some ("x")) (some "")).2.2.2.2 (by decide)⟩

/-- C8 (counterexample): the claim's symmetric reference rule says that
with `requires_reference` false and a non-None reference a warning is
emitted and evaluation proceeds; but when the input rule raises first
(requires_input true, input None) the check raises and the reference
warning is never emitted. -/
theorem C8_reference_warning_skipped :
    (_check_evaluation_args (EvaluatorFlags.mk true false ("E") ("WI") ("WR"))
        (some ("r")) none).2 =
      some (inputMissingError (EvaluatorFlags.mk true false ("E") ("WI") ("WR"))) ∧
    ("WR") ∉ (_check_evaluation_args (EvaluatorFlags.mk true false ("E") ("WI") ("WR"))
        (some ("r")) none).1 := by
  exact ⟨rfl, by decide⟩

/-- C8 (amended): the validation rules hold with the input rules applied
first: a required-but-None input raises (and skips the reference rules
entirely); an unexpected input warns; once the input rule has not
raised, a required-but-None reference raises and an unexpected reference
warns and proceeds. -/
theorem C8_check_args_ordered (ev : EvaluatorFlags) (reference input : Option String) :
    (ev.requiresInput = true → input = none →
      _check_evaluation_args ev reference input = ([], some (inputMissingError ev))) ∧
    (ev.requiresInput = false → input.isSome = true →
      ev.skipInputWarning ∈ (_check_evaluation_args ev reference input).1) ∧
    (¬(ev.requiresInput = true ∧ input = none) → ev.requiresReference = true →
      reference = none →
      (_check_evaluation_args ev reference input).2 = some (referenceMissingError ev)) ∧
    (¬(ev.requiresInput = true ∧ input = none) → ev.requiresReference = false →
      reference.isSome = true →
      ev.skipReferenceWarning ∈ (_check_evaluation_args ev reference input).1 ∧
      (_check_evaluation_args ev reference input).2 = none) := by
  obtain ⟨ri, rr, nm, wi, wr⟩ := ev
  cases ri <;> cases rr <;> cases input <;> cases reference <;>
    simp [_check_evaluation_args, inputMissingError, referenceMissingError]

/-- C8 (witness): the ordered rules applied at a concrete evaluator. -/
theorem C8_check_args_ordered_witness :
    (EvaluatorFlags.mk true false ("E") ("WI") ("WR")).requiresInput = true ∧
    _check_evaluation_args (EvaluatorFlags.mk true false ("E") ("WI") ("WR"))
        (some ("r")) none
      = ([], some (inputMissingError (EvaluatorFlags.mk true false ("E") ("WI") ("WR")))) :=
  ⟨rfl, (C8_check_args_ordered (EvaluatorFlags.mk true false ("E") ("WI") ("WR"))
    (some ("r")) none).1 rfl rfl⟩

/-- C9: the synchronous and asynchronous evaluation paths perform
identical argument validation, payload assembly and reply parsing: with
the same completion capability supplied to each, they are equal as
functions of the evaluation arguments, both at the public wrapper level
and at the inner `_evaluate_string_pairs` level. -/
theorem C9_sync_async_agree (c : PairwiseStringEvalChain)
    (f : List (String × String) → String) (prediction prediction_b : String)
    (reference input : Option String) :
    evaluate_string_pairs c f prediction prediction_b reference input =
      aevaluate_string_pairs c f prediction prediction_b reference input ∧
    _evaluate_string_pairs c f prediction prediction_b input reference =
      _aevaluate_string_pairs c f prediction prediction_b reference input :=
  ⟨rfl, rfl⟩

/-- C10: `requires_input` is the constant True for every constructed
chain, whatever its prompt; hence `_prepare_input` rejects a missing and
an empty input for every chain. -/
theorem C10_requires_input_always_true (c : PairwiseStringEvalChain) :
    requires_input c = true ∧
    ∀ (prediction prediction_b : String) (reference : Option String),
      _prepare_input c prediction prediction_b none reference
        = Except.error inputRequiredError ∧
      _prepare_input c prediction prediction_b (some "") reference
        = Except.error inputRequiredError :=
  ⟨rfl, fun _ _ _ => ⟨rfl, rfl⟩⟩

end LangchainEval

